import Mathlib

/-!
Verification of the Twilio voice-skill call pipeline: a shallow embedding of
`scripts/webhook-server.js`, `scripts/queue-worker.js` and
`scripts/stt-providers.js`, followed by theorems about the security gate,
the PIN state machine, the response orchestrator and the escalation queue.

Modelling conventions:
* In-memory JS `Map`s become functions `String → Option α` with pointwise
  update (`mapSet`) and removal (`mapDel`).
* A value that JS may leave `undefined` becomes `Option String`; JS strict
  equality `===` on such values is `Option.decEq` (two absent values are
  equal), and JS truthiness of a string is "present and nonempty".
* TwiML response strings are modelled structurally as lists of verbs,
  keeping the verb order, attributes and spoken texts of the templates.
* Network results (Groq calls, queue-worker re-runs) are oracles passed in
  as explicit arguments; file appends are modelled on the happy path
  (append to a list always succeeds).
* Timestamps and generated ids are passed in as arguments (`now`, `newId`,
  `ts`) since the source reads the clock and RNG at those points.
-/

namespace TwilioVoice

/-- One allowlist entry from `config.allowedNumbers`: `{number, pin, name}`. -/
structure AllowEntry where
  number : String
  pin : String
  name : String
  deriving DecidableEq, Repr

/-- One language line of `config.menu.languages`. -/
structure MenuLang where
  key : String
  lang : String
  voice : String
  prompt : String
  deriving DecidableEq, Repr

/-- The `config.menu.voiceNote` entry. -/
structure MenuVoiceNote where
  key : String
  voice : String
  prompt : String
  deriving DecidableEq, Repr

/-- The `config.menu` object. -/
structure Menu where
  languages : List MenuLang
  voiceNote : Option MenuVoiceNote
  deriving DecidableEq, Repr

/-- The parts of the webhook server's `config` object that the verified
routines read: allowlist, PIN attempt ceiling, rate-limit ceiling, menu,
and the Telegram chat-id fallbacks used when queueing an escalation. -/
structure Config where
  allowedNumbers : List AllowEntry
  maxAttempts : Nat
  rateLimitPerHour : Nat
  menu : Option Menu
  asyncTelegramChatId : Option String
  telegramDefaultChatId : Option String
  deriving DecidableEq, Repr

/-- One value of the `callState` map: `{attempts, startTime, callerNumber,
name}` plus the `lang` field set later at menu selection (absent at start). -/
structure CallState where
  attempts : Nat
  startTime : Int
  callerNumber : String
  name : String
  lang : Option String
  deriving DecidableEq, Repr

/-- One value of the `rateLimits` map: `{count, resetTime}`. -/
structure RateEntry where
  count : Nat
  resetTime : Int
  deriving DecidableEq, Repr

/-- The `rateLimits` JS `Map`, keyed by phone number. -/
abbrev RateMap := String → Option RateEntry

/-- The `callState` JS `Map`, keyed by call SID. -/
abbrev SessionMap := String → Option CallState

/-- `Map.set`. -/
def mapSet {α : Type} (m : String → Option α) (k : String) (v : α) :
    String → Option α :=
  fun x => if x = k then some v else m x

/-- `Map.delete`. -/
def mapDel {α : Type} (m : String → Option α) (k : String) :
    String → Option α :=
  fun x => if x = k then none else m x

/-- The empty `rateLimits` map. -/
def emptyRate : RateMap := fun _ => none

/-- The empty `callState` map. -/
def emptySessions : SessionMap := fun _ => none

/-- JS `a || b` on two possibly-absent strings (the empty string is falsy). -/
def jsOrOpt (a b : Option String) : Option String :=
  match a with
  | some s => if s = "" then b else some s
  | none => b

/-- `isAllowed(phoneNumber)`: membership in `config.allowedNumbers`. -/
def isAllowed (c : Config) (phoneNumber : String) : Bool :=
  c.allowedNumbers.any (fun n => n.number == phoneNumber)

/-- `getPin(phoneNumber)`: `entry?.pin` of the first matching entry. -/
def getPin (c : Config) (phoneNumber : String) : Option String :=
  (c.allowedNumbers.find? (fun n => n.number == phoneNumber)).map
    (fun n => n.pin)

/-- `getName(phoneNumber)`: `entry?.name || 'Guest'`. -/
def getName (c : Config) (phoneNumber : String) : String :=
  match c.allowedNumbers.find? (fun n => n.number == phoneNumber) with
  | some e => if e.name = "" then "Guest" else e.name
  | none => "Guest"

/-- `checkRateLimit(phoneNumber)`: opens a fresh window of the fixed
`3600000` ms on a missing or lapsed entry, rejects once `count` has reached
`config.rateLimitPerHour` inside an open window, otherwise increments.
Returns the boolean outcome together with the updated map. -/
def checkRateLimit (c : Config) (now : Int) (rl : RateMap)
    (phoneNumber : String) : Bool × RateMap :=
  match rl phoneNumber with
  | none => (true, mapSet rl phoneNumber ⟨1, now + 3600000⟩)
  | some limit =>
    if now > limit.resetTime then
      (true, mapSet rl phoneNumber ⟨1, now + 3600000⟩)
    else if limit.count ≥ c.rateLimitPerHour then
      (false, rl)
    else
      (true, mapSet rl phoneNumber ⟨limit.count + 1, limit.resetTime⟩)

/-- A TwiML verb, as emitted by the response templates: `<Say>` (voice,
optional language attribute, text), `<Pause>`, a digit `<Gather>` with its
nested prompts, `<Redirect>`, and `<Hangup/>`. -/
inductive Verb where
  | say (voice : String) (lang : Option String) (text : String)
  | pause (len : Nat)
  | gatherDigits (numDigits : Nat) (action : String) (timeoutSecs : Nat)
      (inner : List Verb)
  | redirect (url : String)
  | hangup
  deriving Repr

/-- A TwiML `<Response>` body: the verb list between the response tags. -/
abbrev Twiml := List Verb

/-- Whether a verb is `<Hangup/>`. -/
def isHangupVerb : Verb → Bool
  | .hangup => true
  | _ => false

/-- Whether the response contains a `<Hangup/>` (hangups are only ever
emitted at the top level of a template). -/
def hasHangup (r : Twiml) : Bool := r.any isHangupVerb

/-- Whether a verb is a digit `<Gather>`. -/
def isDigitGatherVerb : Verb → Bool
  | .gatherDigits _ _ _ _ => true
  | _ => false

/-- Whether the response contains a digit `<Gather>` (gathers are only ever
emitted at the top level of a template, never nested in one another). -/
def hasDigitGather (r : Twiml) : Bool := r.any isDigitGatherVerb

/-- The `action` attribute of a `<Gather>` verb, if any. -/
def gatherAction : Verb → Option String
  | .gatherDigits _ action _ _ => some action
  | _ => none

/-- Whether the response is the post-PIN menu: it carries the one-digit
gather posting to `/voice/select-language`. -/
def isMenuResponse (r : Twiml) : Bool :=
  r.any (fun v => gatherAction v == some "/voice/select-language")

/-- The `rate_limited` rejection template of `POST /voice/incoming`. -/
def rateLimitedTwiml : Twiml :=
  [.say "alice" none "Too many calls. Please try again later.", .hangup]

/-- The `unauthorized` rejection template of `POST /voice/incoming`. -/
def unauthorizedTwiml : Twiml :=
  [.say "alice" none "This number is not authorized to access this service.",
   .hangup]

/-- The PIN prompt template of `POST /voice/incoming`. -/
def pinPromptTwiml : Twiml :=
  [.gatherDigits 6 "/voice/verify-pin" 10
     [.say "alice" none "Welcome. Please enter your 6 digit PIN."],
   .say "alice" none "No input received. Goodbye.",
   .hangup]

/-- The stale-session template shared by the callback handlers. -/
def sessionErrorTwiml : Twiml :=
  [.say "alice" none "Session error. Goodbye.", .hangup]

/-- The `max_attempts` terminal template of `POST /voice/verify-pin`. -/
def maxAttemptsTwiml : Twiml :=
  [.say "alice" none "Too many failed attempts. Goodbye.", .hangup]

/-- The wrong-PIN re-prompt template of `POST /voice/verify-pin`. -/
def wrongPinTwiml (remaining : Nat) : Twiml :=
  [.gatherDigits 6 "/voice/verify-pin" 10
     [.say "alice" none
        ("Incorrect PIN. You have " ++ toString remaining ++
         " attempts remaining. Please try again.")],
   .say "alice" none "No input received. Goodbye.",
   .hangup]

/-- The fallback menu literal used when `config.menu` is absent. -/
def defaultMenu : Menu :=
  { languages :=
      [⟨"1", "es", "Polly.Lupe", "Para español, presione uno."⟩,
       ⟨"2", "en", "Polly.Joanna", "For English, press two."⟩],
    voiceNote := some ⟨"9", "Polly.Joanna", "To leave a voice note, press nine."⟩ }

/-- The menu prompt verbs: one `<Say>`/`<Pause>` pair per configured
language, then the voice-note prompt when configured. -/
def menuPrompts (m : Menu) : List Verb :=
  (m.languages.map (fun l =>
    [Verb.say l.voice (some (if l.lang == "es" then "es-US" else "en-US"))
       l.prompt,
     Verb.pause 1])).flatten ++
  (match m.voiceNote with
   | some vn => [Verb.say vn.voice (some "en-US") vn.prompt]
   | none => [])

/-- The authenticated-menu template of `POST /voice/verify-pin`. -/
def menuTwiml (c : Config) : Twiml :=
  [.gatherDigits 1 "/voice/select-language" 10
     (menuPrompts (c.menu.getD defaultMenu)),
   .say "alice" none "No selection made. Defaulting to English.",
   .redirect "/voice/start-conversation?lang=en"]

/-- `POST /voice/incoming`: rate-limit check first, then allowlist check,
then session creation and the PIN prompt. Returns the response together
with the updated rate-limit and session maps. -/
def handleIncoming (c : Config) (now : Int) (rl : RateMap) (cs : SessionMap)
    (callerNumber callSid : String) : Twiml × RateMap × SessionMap :=
  let check := checkRateLimit c now rl callerNumber
  if check.fst = false then
    (rateLimitedTwiml, check.snd, cs)
  else if isAllowed c callerNumber = false then
    (unauthorizedTwiml, check.snd, cs)
  else
    (pinPromptTwiml, check.snd,
     mapSet cs callSid ⟨0, now, callerNumber, getName c callerNumber, none⟩)

/-- `POST /voice/verify-pin`: stale-session guard, then JS strict equality
of `Digits` against `getPin(From)` (both possibly absent), then the
increment / re-prompt / terminal logic on the attempt counter. -/
def handleVerifyPin (c : Config) (cs : SessionMap) (digits : Option String)
    (callSid callerNumber : String) : Twiml × SessionMap :=
  match cs callSid with
  | none => (sessionErrorTwiml, cs)
  | some st =>
    if digits = getPin c callerNumber then
      (menuTwiml c, cs)
    else
      let attempts := st.attempts + 1
      if attempts ≥ c.maxAttempts then
        (maxAttemptsTwiml, mapDel cs callSid)
      else
        (wrongPinTwiml (c.maxAttempts - attempts),
         mapSet cs callSid { st with attempts := attempts })

/-- One line of `pending-queries.jsonl`, as written by
`queueForAsyncProcessing`. -/
structure QueueEntry where
  id : String
  message : String
  lang : Option String
  callerNumber : String
  callerName : String
  chatId : Option String
  timestamp : String
  deriving DecidableEq, Repr

/-- Whether a session language is Spanish (`state.lang === 'es'`). -/
def isEs (lang : Option String) : Bool := lang == some "es"

/-- The missing-API-key reply of `processWithAgent`. -/
def msgNotConfigured (lang : Option String) : String :=
  if isEs lang then "El agente no está configurado."
  else "The agent is not configured."

/-- The generic non-timeout-failure reply of `processWithAgent`. -/
def msgGenericError (lang : Option String) : String :=
  if isEs lang then "Lo siento, hubo un error. Intenta más tarde."
  else "Sorry, there was an error. Try again later."

/-- The apology prepended to a reply that needed the second attempt. -/
def msgWaitApology (lang : Option String) : String :=
  if isEs lang then "Disculpa la espera. " else "Sorry for the wait. "

/-- The reply promising an out-of-band follow-up after both attempts fail. -/
def msgFollowUp (lang : Option String) : String :=
  if isEs lang then
    "Esa pregunta está tomando más tiempo del esperado. Te envío la respuesta por mensaje de texto en unos minutos."
  else
    "That question is taking longer than expected. I\x27ll send you the answer via text message in a few minutes."

/-- The outcome of one `callGroq(timeoutMs)` call: an HTTP-ok response
carrying `data.choices?.[0]?.message?.content` (possibly absent), an
`AbortError` from the timeout, or any other thrown error. -/
inductive GroqResult where
  | success (reply : Option String)
  | timeout
  | failure (msg : String)
  deriving DecidableEq, Repr

/-- JS truthiness of `result.reply`: present and nonempty. -/
def replyTruthy : Option String → Bool
  | some s => !(s == "")
  | none => false

/-- `queueForAsyncProcessing(query)`: appends one entry to the pending
queue, with `chatId: query.chatId || config.telegram?.defaultChatId`. The
file append is modelled on its happy path, so the call reports success. -/
def queueForAsyncProcessing (c : Config) (message : String)
    (lang : Option String) (callerNumber callerName : String)
    (chatId : Option String) (newId ts : String) (q : List QueueEntry) :
    Bool × List QueueEntry :=
  (true,
   q ++ [⟨newId, message, lang, callerNumber, callerName,
          jsOrOpt chatId c.telegramDefaultChatId, ts⟩])

/-- The queue entry `processWithAgent` writes when escalating: its `chatId`
argument is `config.asyncResponse?.telegram?.chatId ||
config.telegram?.defaultChatId`, re-defaulted inside
`queueForAsyncProcessing`. -/
def escalationEntry (c : Config) (st : CallState) (message newId ts : String) :
    QueueEntry :=
  ⟨newId, message, st.lang, st.callerNumber, st.name,
   jsOrOpt (jsOrOpt c.asyncTelegramChatId c.telegramDefaultChatId)
     c.telegramDefaultChatId,
   ts⟩

/-- `processWithAgent(userMessage, state)`: first attempt, then — only on a
first-attempt timeout — a single retry, then queue-and-promise-follow-up;
every other failure returns the generic error reply. `a1`/`a2` are the
oracle outcomes of the two possible `callGroq` calls; the result is the
spoken reply together with the updated pending queue. -/
def processWithAgent (c : Config) (st : CallState) (userMessage : String)
    (hasKey : Bool) (a1 a2 : GroqResult) (newId ts : String)
    (q : List QueueEntry) : String × List QueueEntry :=
  if !hasKey then
    (msgNotConfigured st.lang, q)
  else
    match a1 with
    | .success r =>
      if replyTruthy r then (r.getD "", q)
      else (msgGenericError st.lang, q)
    | .failure _ => (msgGenericError st.lang, q)
    | .timeout =>
      let second :=
        match a2 with
        | .success r =>
          if replyTruthy r then some (msgWaitApology st.lang ++ r.getD "")
          else none
        | _ => none
      match second with
      | some reply => (reply, q)
      | none =>
        let res := queueForAsyncProcessing c userMessage st.lang
          st.callerNumber st.name
          (jsOrOpt c.asyncTelegramChatId c.telegramDefaultChatId) newId ts q
        if res.fst then (msgFollowUp st.lang, res.snd)
        else (msgGenericError st.lang, q)

/-- The outcome of the queue worker's `processQuery(query)`: an HTTP-ok
response carrying `data.choices?.[0]?.message?.content` (possibly absent),
or an error (missing key, non-ok status, thrown error). -/
inductive QueryResult where
  | ok (reply : Option String)
  | err (msg : String)
  deriving DecidableEq, Repr

/-- One line of `processed-queries.jsonl`: the original entry plus
`processedAt`. -/
structure ProcessedEntry where
  entry : QueueEntry
  processedAt : String
  deriving DecidableEq, Repr

/-- JS string coercion of `result.reply` in `header + result.reply`. -/
def jsStringOfOpt : Option String → String
  | some s => s
  | none => "undefined"

/-- The per-language header the worker puts before the model reply. -/
def telegramHeader (q : QueueEntry) : String :=
  if isEs q.lang then
    "📞 *Respuesta a tu pregunta de voz:*\n_\"" ++ q.message ++ "\"_\n\n"
  else
    "📞 *Response to your voice query:*\n_\"" ++ q.message ++ "\"_\n\n"

/-- `markProcessed(queries)`: appends the read entries (annotated with
`processedAt`) to the processed log when there are any, then overwrites the
pending file with the empty string. Returns the processed log and the
pending-file content it leaves behind. -/
def markProcessed (queries : List QueueEntry)
    (processed : List ProcessedEntry) (ts : String) :
    List ProcessedEntry × List QueueEntry :=
  (if queries.isEmpty then processed
   else processed ++ queries.map (fun q => ⟨q, ts⟩),
   [])

/-- One `processQueue()` drain cycle. `pendingAtRead` is the pending-file
content at `readPendingQueries()`; `appendedDuring` are the entries another
process appends between that read and `markProcessed`'s truncation, so the
pending file holds `pendingAtRead ++ appendedDuring` when it is overwritten
with the empty string. `oracle` gives each entry's `processQuery` outcome.
Returns the final pending-file content, the processed log, and the list of
`(entry, message)` pairs handed to `sendResponse`. -/
def processQueue (oracle : QueueEntry → QueryResult) (ts : String)
    (pendingAtRead appendedDuring : List QueueEntry)
    (processed : List ProcessedEntry) :
    List QueueEntry × List ProcessedEntry × List (QueueEntry × String) :=
  if pendingAtRead.isEmpty then
    (pendingAtRead ++ appendedDuring, processed, [])
  else
    let sends := pendingAtRead.filterMap (fun q =>
      match oracle q with
      | .ok reply => some (q, telegramHeader q ++ jsStringOfOpt reply)
      | .err _ => none)
    let mp := markProcessed pendingAtRead processed ts
    (mp.snd, mp.fst, sends)

/-- The nested `langMap` literal of `getLanguageCode`. -/
def langMap : List (String × List (String × String)) :=
  [("deepgram", [("es", "es"), ("en", "en-US")]),
   ("groq", [("es", "es"), ("en", "en")]),
   ("twilio", [("es", "es-US"), ("en", "en-US")])]

/-- `getLanguageCode(providerName, lang)`:
`langMap[providerName]?.[lang] || lang`. -/
def getLanguageCode (providerName lang : String) : String :=
  match (langMap.lookup providerName).bind (fun m => m.lookup lang) with
  | some code => if code = "" then lang else code
  | none => lang

/-- A sample configuration: one allowlisted caller, three PIN attempts,
five calls per hour, default menu, no Telegram chat ids. -/
def cfg1 : Config :=
  { allowedNumbers := [⟨"+15550001111", "123456", "Bob"⟩],
    maxAttempts := 3,
    rateLimitPerHour := 5,
    menu := none,
    asyncTelegramChatId := none,
    telegramDefaultChatId := none }

/-- A second, entirely different configuration (different ceiling, menu and
chat ids) used to exhibit the configuration-independence of the rate-limit
window. -/
def cfg2 : Config :=
  { allowedNumbers := [],
    maxAttempts := 7,
    rateLimitPerHour := 99,
    menu := some ⟨[⟨"1", "en", "Polly.Joanna", "For English, press one."⟩], none⟩,
    asyncTelegramChatId := some "111",
    telegramDefaultChatId := some "222" }

/-- A sample active session for call SID `CA1`, owned by the allowlisted
caller of `cfg1`, with no failed attempts yet. -/
def stA : CallState :=
  ⟨0, 0, "+15550001111", "Bob", none⟩

/-- A session store holding only `stA` under `CA1`. -/
def cs0 : SessionMap := mapSet emptySessions "CA1" stA

/-- A sample pending queue entry. -/
def qe1 : QueueEntry :=
  ⟨"q1", "first question", some "en", "+15550001111", "Bob", some "123", "T0"⟩

/-- A second, distinct queue entry, used as the concurrently appended one. -/
def qe2 : QueueEntry :=
  ⟨"q2", "second question", some "es", "+15550002222", "Ana", none, "T1"⟩

/-- An oracle under which every re-run of a queued query fails. -/
def oracleErr : QueueEntry → QueryResult := fun _ => .err "boom"

/-- An oracle under which every re-run returns HTTP success with no
`choices[0].message.content`. -/
def oracleNoReply : QueueEntry → QueryResult := fun _ => .ok none

/-- A rate-limit table in which the allowlisted caller of `cfg1` has used
up all five calls of a window that is still open at time `500`. -/
def rlA : RateMap := mapSet emptyRate "+15550001111" ⟨5, 1000⟩

/-! ## Helper lemmas about the fixed response templates -/

theorem isMenuResponse_menuTwiml (c : Config) :
    isMenuResponse (menuTwiml c) = true := rfl

theorem isMenuResponse_wrongPinTwiml (n : Nat) :
    isMenuResponse (wrongPinTwiml n) = false := rfl

theorem isMenuResponse_maxAttemptsTwiml :
    isMenuResponse maxAttemptsTwiml = false := rfl

theorem isMenuResponse_sessionErrorTwiml :
    isMenuResponse sessionErrorTwiml = false := rfl

theorem checkRateLimit_false_unchanged (c : Config) (now : Int) (rl : RateMap)
    (n : String) (h : (checkRateLimit c now rl n).fst = false) :
    (checkRateLimit c now rl n).snd = rl := by
  unfold checkRateLimit at h ⊢
  cases hr : rl n with
  | none => rw [hr] at h; simp at h
  | some limit =>
    rw [hr] at h
    by_cases hw : now > limit.resetTime
    · simp [hw] at h
    · by_cases hc : limit.count ≥ c.rateLimitPerHour
      · simp [hw, hc]
      · simp [hw, hc] at h

theorem handleIncoming_rateMap (c : Config) (now : Int) (rl : RateMap)
    (cs : SessionMap) (caller sid : String) :
    (handleIncoming c now rl cs caller sid).snd.fst =
      (checkRateLimit c now rl caller).snd := by
  simp only [handleIncoming]
  split_ifs <;> rfl

/-! ## Claim theorems -/

/-- C1: for every inbound-call event whose caller number is not in the
configured allowlist, the handler's response contains a hangup and no
digit gather (so no PIN prompt), and the session store is left unchanged,
so no call session is created for that call id. -/
theorem c1_unauthorized_inbound_rejected (c : Config) (now : Int)
    (rl : RateMap) (cs : SessionMap) (caller sid : String)
    (h : isAllowed c caller = false) :
    hasHangup (handleIncoming c now rl cs caller sid).fst = true ∧
    hasDigitGather (handleIncoming c now rl cs caller sid).fst = false ∧
    (handleIncoming c now rl cs caller sid).snd.snd = cs := by
  simp only [handleIncoming]
  split_ifs with h1
  · exact ⟨rfl, rfl, rfl⟩
  · exact ⟨rfl, rfl, rfl⟩

/-- Witness for C1 at the non-allowlisted caller `+15551230000` of the
sample configuration. -/
theorem c1_unauthorized_inbound_rejected_witness :
    isAllowed cfg1 "+15551230000" = false ∧
    (hasHangup
        (handleIncoming cfg1 0 emptyRate emptySessions "+15551230000"
          "CA9").fst = true ∧
      hasDigitGather
        (handleIncoming cfg1 0 emptyRate emptySessions "+15551230000"
          "CA9").fst = false ∧
      (handleIncoming cfg1 0 emptyRate emptySessions "+15551230000"
          "CA9").snd.snd = emptySessions) :=
  ⟨by decide,
   c1_unauthorized_inbound_rejected cfg1 0 emptyRate emptySessions
     "+15551230000" "CA9" (by decide)⟩

/-- C2 counterexample: a verify-pin event with an absent `Digits` field and
a caller number with no allowlist entry passes verification (the response
is the menu), because JS strict equality holds between the two absent
values — the claim says every such case is a mismatch. -/
theorem c2_counterexample :
    isAllowed cfg1 "+15559990000" = false ∧
    isMenuResponse
      (handleVerifyPin cfg1 cs0 none "CA1" "+15559990000").fst = true := by
  decide

/-- C2 amended: with an active session, verification succeeds (the call
transitions to the menu) if and only if the possibly-absent `Digits` value
equals the possibly-absent allowlist PIN of the event's caller number under
JS strict equality — exact string match when both are present, and also a
match when both are absent; every remaining case is a mismatch. -/
theorem c2_pin_match_iff (c : Config) (cs : SessionMap)
    (digits : Option String) (sid caller : String) (st : CallState)
    (hst : cs sid = some st) :
    isMenuResponse (handleVerifyPin c cs digits sid caller).fst = true ↔
      digits = getPin c caller := by
  unfold handleVerifyPin
  rw [hst]
  by_cases hd : digits = getPin c caller
  · simp [hd, isMenuResponse_menuTwiml]
  · by_cases hm : st.attempts + 1 ≥ c.maxAttempts
    · simp [hd, hm, isMenuResponse_maxAttemptsTwiml]
    · simp [hd, hm, isMenuResponse_wrongPinTwiml]

/-- Witness for the amended C2 at the allowlisted caller submitting the
correct PIN. -/
theorem c2_pin_match_iff_witness :
    cs0 "CA1" = some stA ∧
    (isMenuResponse
        (handleVerifyPin cfg1 cs0 (some "123456") "CA1"
          "+15550001111").fst = true ↔
      some "123456" = getPin cfg1 "+15550001111") :=
  ⟨by decide,
   c2_pin_match_iff cfg1 cs0 (some "123456") "CA1" "+15550001111" stA
     (by decide)⟩

/-- C3: with an active session for an authorized caller, the correct PIN
always yields the menu; an incorrect PIN increments the stored attempt
counter by exactly one while attempts remain (re-prompting with a digit
gather), and once the counter reaches `config.maxAttempts` the response is
terminal (hangup, no digit gather), the session is removed, and any
subsequent verify-pin callback for the same call id yields the
session-error reply. -/
theorem c3_pin_attempt_flow (c : Config) (cs : SessionMap)
    (sid caller p d : String) (st : CallState) (hst : cs sid = some st)
    (hpin : getPin c caller = some p) (hd : d ≠ p) :
    isMenuResponse (handleVerifyPin c cs (some p) sid caller).fst = true ∧
    (st.attempts + 1 < c.maxAttempts →
      (handleVerifyPin c cs (some d) sid caller).snd sid =
        some { st with attempts := st.attempts + 1 } ∧
      hasDigitGather (handleVerifyPin c cs (some d) sid caller).fst =
        true) ∧
    (c.maxAttempts ≤ st.attempts + 1 →
      hasHangup (handleVerifyPin c cs (some d) sid caller).fst = true ∧
      hasDigitGather (handleVerifyPin c cs (some d) sid caller).fst =
        false ∧
      (handleVerifyPin c cs (some d) sid caller).snd sid = none ∧
      (∀ d2 : Option String,
        (handleVerifyPin c
            ((handleVerifyPin c cs (some d) sid caller).snd) d2 sid
            caller).fst = sessionErrorTwiml)) := by
  have hne : ¬ (some d = getPin c caller) := by
    rw [hpin]
    intro hcontra
    exact hd (Option.some.inj hcontra)
  refine ⟨?_, ?_, ?_⟩
  · unfold handleVerifyPin
    rw [hst, hpin]
    simp [isMenuResponse_menuTwiml]
  · intro hlt
    have hnotmax : ¬ (st.attempts + 1 ≥ c.maxAttempts) := by omega
    have hfst : handleVerifyPin c cs (some d) sid caller =
        (wrongPinTwiml (c.maxAttempts - (st.attempts + 1)),
         mapSet cs sid { st with attempts := st.attempts + 1 }) := by
      unfold handleVerifyPin
      rw [hst]
      simp [hne, hnotmax]
    constructor
    · rw [hfst]
      simp [mapSet]
    · rw [hfst]
      rfl
  · intro hmax
    have hge : st.attempts + 1 ≥ c.maxAttempts := hmax
    have hfst : handleVerifyPin c cs (some d) sid caller =
        (maxAttemptsTwiml, mapDel cs sid) := by
      unfold handleVerifyPin
      rw [hst]
      simp [hne, hge]
    refine ⟨by rw [hfst]; rfl, by rw [hfst]; rfl, ?_, ?_⟩
    · rw [hfst]
      simp [mapDel]
    · intro d2
      rw [hfst]
      unfold handleVerifyPin
      simp [mapDel]

/-- Witness for C3: the allowlisted caller of the sample configuration,
correct PIN `123456`, wrong digits `000000`. -/
theorem c3_pin_attempt_flow_witness :
    cs0 "CA1" = some stA ∧
    getPin cfg1 "+15550001111" = some "123456" ∧
    ("000000" : String) ≠ "123456" ∧
    (isMenuResponse
        (handleVerifyPin cfg1 cs0 (some "123456") "CA1"
          "+15550001111").fst = true ∧
      (stA.attempts + 1 < cfg1.maxAttempts →
        (handleVerifyPin cfg1 cs0 (some "000000") "CA1"
            "+15550001111").snd "CA1" =
          some { stA with attempts := stA.attempts + 1 } ∧
        hasDigitGather
          (handleVerifyPin cfg1 cs0 (some "000000") "CA1"
            "+15550001111").fst = true) ∧
      (cfg1.maxAttempts ≤ stA.attempts + 1 →
        hasHangup
          (handleVerifyPin cfg1 cs0 (some "000000") "CA1"
            "+15550001111").fst = true ∧
        hasDigitGather
          (handleVerifyPin cfg1 cs0 (some "000000") "CA1"
            "+15550001111").fst = false ∧
        (handleVerifyPin cfg1 cs0 (some "000000") "CA1"
            "+15550001111").snd "CA1" = none ∧
        (∀ d2 : Option String,
          (handleVerifyPin cfg1
              ((handleVerifyPin cfg1 cs0 (some "000000") "CA1"
                  "+15550001111").snd) d2 "CA1" "+15550001111").fst =
            sessionErrorTwiml))) :=
  ⟨by decide, by decide, by decide,
   c3_pin_attempt_flow cfg1 cs0 "CA1" "+15550001111" "123456" "000000" stA
     (by decide) (by decide) (by decide)⟩

/-- C4 counterexample: an inbound-call event rejected as unauthorized (the
caller is not in the allowlist) does NOT leave the caller's rate-limit
counter unchanged — the rate-limit check runs first and records the call,
taking the counter from absent to `{count := 1}`. -/
theorem c4_counterexample :
    isAllowed cfg1 "+15551230000" = false ∧
    emptyRate "+15551230000" = none ∧
    (handleIncoming cfg1 0 emptyRate emptySessions "+15551230000"
        "CA9").snd.fst "+15551230000" =
      some ⟨1, 3600000⟩ := by
  decide

/-- C4 amended: the rate-limit counter is updated by the rate-limit check
itself, which runs before the allowlist check: a rate-limited rejection
leaves the map unchanged, but whenever the rate-limit check passes — in
particular on calls subsequently rejected as unauthorized — the caller's
counter is still updated (set to 1 on a missing or lapsed window,
incremented by one inside an open window). -/
theorem c4_counter_updated_before_allowlist (c : Config) (now : Int)
    (rl : RateMap) (cs : SessionMap) (caller sid : String) :
    ((checkRateLimit c now rl caller).fst = false →
      (handleIncoming c now rl cs caller sid).snd.fst = rl) ∧
    ((checkRateLimit c now rl caller).fst = true →
      (handleIncoming c now rl cs caller sid).snd.fst caller =
        some (match rl caller with
          | none => ⟨1, now + 3600000⟩
          | some e =>
            if now > e.resetTime then ⟨1, now + 3600000⟩
            else ⟨e.count + 1, e.resetTime⟩)) := by
  constructor
  · intro h
    rw [handleIncoming_rateMap]
    exact checkRateLimit_false_unchanged c now rl caller h
  · intro h
    rw [handleIncoming_rateMap]
    unfold checkRateLimit at h ⊢
    cases hr : rl caller with
    | none => simp [mapSet]
    | some e =>
      rw [hr] at h
      by_cases hw : now > e.resetTime
      · simp [hw, mapSet]
      · by_cases hc : e.count ≥ c.rateLimitPerHour
        · simp [hw, hc] at h
        · simp [hw, hc, mapSet]

/-- Witness for the amended C4: the unauthorized caller `+15551230000`
passes the fresh rate-limit check and ends with a counter of 1. -/
theorem c4_counter_updated_before_allowlist_witness :
    (checkRateLimit cfg1 0 emptyRate "+15551230000").fst = true ∧
    (handleIncoming cfg1 0 emptyRate emptySessions "+15551230000"
        "CA9").snd.fst "+15551230000" =
      some ⟨1, (0 : Int) + 3600000⟩ :=
  ⟨by decide,
   (c4_counter_updated_before_allowlist cfg1 0 emptyRate emptySessions
       "+15551230000" "CA9").2 (by decide)⟩

/-- C5 counterexample: the rate-limit window length is not a configuration
value — two configurations that differ in every field (ceiling included)
both open a window ending exactly `3600000` ms after the call, the
hard-coded constant of `checkRateLimit`. -/
theorem c5_counterexample :
    cfg1 ≠ cfg2 ∧
    cfg1.rateLimitPerHour ≠ cfg2.rateLimitPerHour ∧
    (checkRateLimit cfg1 0 emptyRate "+15550001111").snd "+15550001111" =
      some ⟨1, 3600000⟩ ∧
    (checkRateLimit cfg2 0 emptyRate "+15550001111").snd "+15550001111" =
      some ⟨1, 3600000⟩ := by
  decide

/-- C5 amended: a caller whose counter has reached the configured ceiling
(`config.rateLimitPerHour`) inside the current window is rejected with the
rate-limited markup (hangup, no gather), with no session created and no
counter change, regardless of allowlist membership — even a previously
authorized caller. The ceiling is a configuration value, but the window
length is the hard-coded constant 3600000 ms (one hour), not taken from
configuration. -/
theorem c5_rate_limited_rejected (c : Config) (now : Int) (rl : RateMap)
    (cs : SessionMap) (caller sid : String) (e : RateEntry)
    (he : rl caller = some e) (hwin : ¬ now > e.resetTime)
    (hceil : c.rateLimitPerHour ≤ e.count) :
    (handleIncoming c now rl cs caller sid).fst = rateLimitedTwiml ∧
    hasHangup rateLimitedTwiml = true ∧
    hasDigitGather rateLimitedTwiml = false ∧
    (handleIncoming c now rl cs caller sid).snd.fst = rl ∧
    (handleIncoming c now rl cs caller sid).snd.snd = cs ∧
    (∀ (rl2 : RateMap) (n2 : String), rl2 n2 = none →
      (checkRateLimit c now rl2 n2).snd n2 = some ⟨1, now + 3600000⟩) := by
  have hchk : checkRateLimit c now rl caller = (false, rl) := by
    unfold checkRateLimit
    rw [he]
    simp [hwin, hceil]
  have hfalse : (checkRateLimit c now rl caller).fst = false := by
    rw [hchk]
  have hmain : handleIncoming c now rl cs caller sid =
      (rateLimitedTwiml, (checkRateLimit c now rl caller).snd, cs) := by
    simp only [handleIncoming]
    rw [if_pos hfalse]
  refine ⟨by rw [hmain], rfl, rfl, ?_, by rw [hmain], ?_⟩
  · rw [hmain, hchk]
  · intro rl2 n2 h2
    unfold checkRateLimit
    rw [h2]
    simp [mapSet]

/-- Witness for the amended C5: the allowlisted caller of `cfg1` has made
five calls in a window still open at time 500 and is rejected. -/
theorem c5_rate_limited_rejected_witness :
    rlA "+15550001111" = some ⟨5, 1000⟩ ∧
    ¬ (500 : Int) > (1000 : Int) ∧
    cfg1.rateLimitPerHour ≤ 5 ∧
    isAllowed cfg1 "+15550001111" = true ∧
    ((handleIncoming cfg1 500 rlA emptySessions "+15550001111"
        "CA9").fst = rateLimitedTwiml ∧
      hasHangup rateLimitedTwiml = true ∧
      hasDigitGather rateLimitedTwiml = false ∧
      (handleIncoming cfg1 500 rlA emptySessions "+15550001111"
          "CA9").snd.fst = rlA ∧
      (handleIncoming cfg1 500 rlA emptySessions "+15550001111"
          "CA9").snd.snd = emptySessions ∧
      (∀ (rl2 : RateMap) (n2 : String), rl2 n2 = none →
        (checkRateLimit cfg1 500 rl2 n2).snd n2 =
          some ⟨1, (500 : Int) + 3600000⟩)) :=
  ⟨by decide, by decide, by decide, by decide,
   c5_rate_limited_rejected cfg1 500 rlA emptySessions "+15550001111" "CA9"
     ⟨5, 1000⟩ (by decide) (by decide) (by decide)⟩

/-- C6: when both Groq attempts time out, exactly one escalation entry
(carrying the caller's utterance) is appended to the pending queue and the
spoken reply is the localized follow-up promise — a fixed message distinct
from the error replies, never a raw error message. -/
theorem c6_double_timeout_queues_once (c : Config) (st : CallState)
    (userMessage newId ts : String) (q : List QueueEntry) :
    processWithAgent c st userMessage true .timeout .timeout newId ts q =
      (msgFollowUp st.lang,
       q ++ [escalationEntry c st userMessage newId ts]) ∧
    (q ++ [escalationEntry c st userMessage newId ts]).length =
      q.length + 1 ∧
    (escalationEntry c st userMessage newId ts).message = userMessage ∧
    msgFollowUp st.lang ≠ msgGenericError st.lang ∧
    msgFollowUp st.lang ≠ msgNotConfigured st.lang := by
  refine ⟨rfl, by simp, rfl, ?_, ?_⟩
  · cases hl : isEs st.lang <;>
      simp only [msgFollowUp, msgGenericError, hl, if_true, if_false,
        Bool.false_eq_true, reduceIte] <;> decide
  · cases hl : isEs st.lang <;>
      simp only [msgFollowUp, msgNotConfigured, hl, if_true, if_false,
        Bool.false_eq_true, reduceIte] <;> decide

/-- C7 counterexample: a non-timeout failure on the second attempt (after a
first-attempt timeout) does not return the generic failure message with no
escalation — the code queues an escalation entry and speaks the follow-up
promise instead. -/
theorem c7_counterexample :
    (processWithAgent cfg1 stA "question" true .timeout
        (.failure "ECONNRESET") "id1" "T1" []).fst = msgFollowUp none ∧
    (processWithAgent cfg1 stA "question" true .timeout
        (.failure "ECONNRESET") "id1" "T1" []).snd.length = 1 ∧
    msgFollowUp none ≠ msgGenericError none := by
  decide

/-- C7 amended: a non-timeout failure of the FIRST attempt (thrown error,
or an ok response with a missing or empty reply) returns the localized
generic failure message with no retry (the outcome is independent of the
second-attempt oracle) and no queue entry; but a non-timeout failure of
the SECOND attempt — which only runs after a first-attempt timeout — is
handled like a second timeout: the utterance is queued for escalation and
the follow-up promise is spoken. -/
theorem c7_hard_failure_paths (c : Config) (st : CallState)
    (userMessage newId ts m : String) (a2 : GroqResult)
    (q : List QueueEntry) :
    processWithAgent c st userMessage true (.failure m) a2 newId ts q =
      (msgGenericError st.lang, q) ∧
    processWithAgent c st userMessage true (.success none) a2 newId ts q =
      (msgGenericError st.lang, q) ∧
    processWithAgent c st userMessage true (.success (some "")) a2 newId
        ts q = (msgGenericError st.lang, q) ∧
    processWithAgent c st userMessage true .timeout (.failure m) newId ts
        q =
      (msgFollowUp st.lang,
       q ++ [escalationEntry c st userMessage newId ts]) :=
  ⟨rfl, rfl, rfl, rfl⟩

/-- C8 counterexample: an entry appended to the pending queue between the
drain's read and its truncation IS lost — after the cycle the pending file
is empty and the processed log holds only the entry that was read, so the
concurrently appended entry is neither included in the cycle nor left
pending for a later one. -/
theorem c8_counterexample :
    (processQueue oracleErr "T2" [qe1] [qe2] []).fst = [] ∧
    (processQueue oracleErr "T2" [qe1] [qe2] []).snd.fst =
      [⟨qe1, "T2"⟩] ∧
    qe2 ≠ qe1 := by
  decide

/-- C8 amended: a drain cycle that read at least one entry moves exactly
the entries it read to the processed log (each annotated with
`processedAt`) but then truncates the entire pending file, discarding any
entry appended concurrently between the read and the truncation; only a
cycle that read nothing leaves concurrent appends pending. -/
theorem c8_drain_truncates_pending (oracle : QueueEntry → QueryResult)
    (ts : String) (pendingAtRead appendedDuring : List QueueEntry)
    (processed : List ProcessedEntry) (h : pendingAtRead ≠ []) :
    (processQueue oracle ts pendingAtRead appendedDuring processed).fst =
      [] ∧
    (processQueue oracle ts pendingAtRead appendedDuring
        processed).snd.fst =
      processed ++ pendingAtRead.map (fun q => ⟨q, ts⟩) ∧
    (processQueue oracle ts [] appendedDuring processed).fst =
      appendedDuring := by
  cases pendingAtRead with
  | nil => exact absurd rfl h
  | cons q0 rest =>
    refine ⟨rfl, ?_, by simp [processQueue]⟩
    simp [processQueue, markProcessed]

/-- Witness for the amended C8 with one read entry and one concurrent
append. -/
theorem c8_drain_truncates_pending_witness :
    ([qe1] : List QueueEntry) ≠ [] ∧
    ((processQueue oracleErr "T2" [qe1] [qe2] []).fst = [] ∧
      (processQueue oracleErr "T2" [qe1] [qe2] []).snd.fst =
        [] ++ [qe1].map (fun q => ⟨q, "T2"⟩) ∧
      (processQueue oracleErr "T2" [] [qe2] []).fst = [qe2]) :=
  ⟨by decide,
   c8_drain_truncates_pending oracleErr "T2" [qe1] [qe2] [] (by decide)⟩

/-- C9 counterexample: for a provider/language pair not covered by the
lookup table (here provider `deepgram` with language `fr`), the language
code handed to the provider IS the internal value passed through
unchanged, via the `|| lang` fallback. -/
theorem c9_counterexample :
    (langMap.lookup "deepgram").bind (fun m => m.lookup "fr") = none ∧
    getLanguageCode "deepgram" "fr" = "fr" := by
  decide

/-- C9 amended: for provider/language pairs covered by the table the code
handed to the provider is the table's provider-specific value (bare
two-letter codes for Groq, region-qualified tags where required), but for
any pair the table does not cover, the internal language value is passed
through unchanged. -/
theorem c9_language_code_mapping (p l : String)
    (h : (langMap.lookup p).bind (fun m => m.lookup l) = none) :
    getLanguageCode "deepgram" "es" = "es" ∧
    getLanguageCode "deepgram" "en" = "en-US" ∧
    getLanguageCode "groq" "es" = "es" ∧
    getLanguageCode "groq" "en" = "en" ∧
    getLanguageCode "twilio" "es" = "es-US" ∧
    getLanguageCode "twilio" "en" = "en-US" ∧
    getLanguageCode p l = l := by
  refine ⟨rfl, rfl, rfl, rfl, rfl, rfl, ?_⟩
  unfold getLanguageCode
  rw [h]

/-- Witness for the amended C9 at the uncovered pair
(`elevenlabs`, `fr`). -/
theorem c9_language_code_mapping_witness :
    (langMap.lookup "elevenlabs").bind (fun m => m.lookup "fr") = none ∧
    (getLanguageCode "deepgram" "es" = "es" ∧
      getLanguageCode "deepgram" "en" = "en-US" ∧
      getLanguageCode "groq" "es" = "es" ∧
      getLanguageCode "groq" "en" = "en" ∧
      getLanguageCode "twilio" "es" = "es-US" ∧
      getLanguageCode "twilio" "en" = "en-US" ∧
      getLanguageCode "elevenlabs" "fr" = "fr") :=
  ⟨by decide, c9_language_code_mapping "elevenlabs" "fr" (by decide)⟩

/-- C10 counterexample: a drained entry whose re-run returns HTTP success
with a missing reply (`choices[0].message.content` absent) is NOT handled
silently — the worker treats it as a success and invokes a notification
send whose message is the header plus the JS string `undefined`. -/
theorem c10_counterexample :
    (processQueue oracleNoReply "T2" [qe1] [] []).snd.snd =
      [(qe1, telegramHeader qe1 ++ "undefined")] ∧
    (processQueue oracleNoReply "T2" [qe1] [] []).snd.snd ≠ [] := by
  decide

/-- C10 amended: a drained entry whose re-run raises an error is appended
to the processed log with a `processedAt` timestamp, removed from the
pending file, triggers no notification send, and is never retried in a
later cycle — the promised follow-up is silently dropped; but an entry
whose re-run returns HTTP success with a missing reply is treated as a
success, and a notification send is invoked for it with the literal string
`undefined` in place of the reply. -/
theorem c10_failed_entry_silently_dropped
    (oracle : QueueEntry → QueryResult) (ts : String)
    (pendingAtRead appendedDuring : List QueueEntry)
    (processed : List ProcessedEntry) (e : QueueEntry) (m : String)
    (he : e ∈ pendingAtRead) (ho : oracle e = .err m) :
    (⟨e, ts⟩ : ProcessedEntry) ∈
      (processQueue oracle ts pendingAtRead appendedDuring
        processed).snd.fst ∧
    e ∉ (processQueue oracle ts pendingAtRead appendedDuring
        processed).fst ∧
    (∀ pr ∈ (processQueue oracle ts pendingAtRead appendedDuring
        processed).snd.snd, pr.fst ≠ e) ∧
    (∀ e2 ∈ pendingAtRead, oracle e2 = .ok none →
      (e2, telegramHeader e2 ++ "undefined") ∈
        (processQueue oracle ts pendingAtRead appendedDuring
          processed).snd.snd) := by
  have hne : pendingAtRead ≠ [] := by
    intro hnil
    rw [hnil] at he
    exact (List.not_mem_nil e) he
  have hempty : pendingAtRead.isEmpty = false := by
    cases pendingAtRead with
    | nil => exact absurd rfl hne
    | cons a l => rfl
  have hq : processQueue oracle ts pendingAtRead appendedDuring processed =
      ([],
       processed ++ pendingAtRead.map (fun q => ⟨q, ts⟩),
       pendingAtRead.filterMap (fun q =>
         match oracle q with
         | .ok reply => some (q, telegramHeader q ++ jsStringOfOpt reply)
         | .err _ => none)) := by
    unfold processQueue markProcessed
    rw [hempty]
    simp [hempty]
  refine ⟨?_, ?_, ?_, ?_⟩
  · rw [hq]
    simp only [List.mem_append, List.mem_map]
    exact Or.inr ⟨e, he, rfl⟩
  · rw [hq]
    simp
  · rw [hq]
    intro pr hpr
    simp only [List.mem_filterMap] at hpr
    obtain ⟨a, ha_mem, ha⟩ := hpr
    intro hfst
    cases hoa : oracle a with
    | ok reply =>
      rw [hoa] at ha
      have hpr2 : (a, telegramHeader a ++ jsStringOfOpt reply) = pr :=
        Option.some.inj ha
      have hae : a = e := by
        rw [← hpr2] at hfst
        simpa using hfst
      rw [hae, ho] at hoa
      exact QueryResult.noConfusion hoa
    | err m2 =>
      rw [hoa] at ha
      exact Option.noConfusion ha
  · intro e2 he2 ho2
    rw [hq]
    simp only [List.mem_filterMap]
    refine ⟨e2, he2, ?_⟩
    rw [ho2]
    rfl

/-- Witness for the amended C10 at a single entry whose re-run errors. -/
theorem c10_failed_entry_silently_dropped_witness :
    qe1 ∈ ([qe1] : List QueueEntry) ∧
    oracleErr qe1 = QueryResult.err "boom" ∧
    ((⟨qe1, "T9"⟩ : ProcessedEntry) ∈
        (processQueue oracleErr "T9" [qe1] [] []).snd.fst ∧
      qe1 ∉ (processQueue oracleErr "T9" [qe1] [] []).fst ∧
      (∀ pr ∈ (processQueue oracleErr "T9" [qe1] [] []).snd.snd,
        pr.fst ≠ qe1) ∧
      (∀ e2 ∈ ([qe1] : List QueueEntry), oracleErr e2 = .ok none →
        (e2, telegramHeader e2 ++ "undefined") ∈
          (processQueue oracleErr "T9" [qe1] [] []).snd.snd)) :=
  ⟨by decide, by decide,
   c10_failed_entry_silently_dropped oracleErr "T9" [qe1] [] [] qe1 "boom"
     (by decide) (by decide)⟩

end TwilioVoice
